import Mathlib

/-!
Verification of the APS demo repository (`main.py`, `tools.py`, `app.py`):
a shallow embedding of its orchestration logic — the dual-job poll loop of
`main`, the single-job poll loops of `generate_pdf_with_da` and
`translate_dwg_for_viewer`, the two-phase OSS upload, the `lru_cache`-backed
token exchange, the URN encoding `safe_base64_encode`, and the single-shot
Model Derivative status probe `get_svf_translation_status`.

Network interactions are abstracted into explicit probe/response inputs;
each workflow function produces a trace of observable events (status probes,
sleeps, finalize calls, downloads) together with its outcome, mirroring the
Python control flow statement by statement.
-/

namespace APS

/-- Observable events emitted by the workflows: a Model Derivative status
probe, a Design Automation status probe, a `time.sleep(n)`, a call to
`finalize_da_upload(object_name, upload_key, size)`, and a download of a
result object. -/
inductive Event
  | probeMD
  | probeDA
  | sleep (n : Nat)
  | finalize (objectName : String) (uploadKey : String) (size : Nat)
  | download (objectName : String)
deriving Repr, DecidableEq

/-- Exceptions of the Python code that matter to the orchestration:
`RuntimeError msg` (raised with a message), a `requests` network error
(`RequestException`, including timeouts), and a `KeyError`. -/
inductive Err
  | runtime (msg : String)
  | network
  | keyError (k : String)
deriving Repr, DecidableEq

/-- The JSON payload returned by `get_da_work_item_status`: its `status`
field, the optional `reportUrl` (read with `.get`), and the optional
`stats.bytesUploaded` (accessed only on success). -/
structure DAData where
  status : String
  reportUrl : Option String
  bytesUploaded : Option Nat
deriving Repr, DecidableEq

/-- Outcome of one HTTP request for the Model Derivative manifest
(`GET /designdata/{urn}/manifest`): HTTP 202 (manifest not ready), a
successful response whose JSON carries optional `status` and `progress`
fields, or a response on which `raise_for_status` raises. -/
inductive ManifestResp
  | notReady
  | ok (status : Option String) (progress : Option String)
  | httpError
deriving Repr, DecidableEq

/-- `get_svf_translation_status` (main.py lines 211-221 / tools.py lines
100-111): HTTP 202 is mapped to the synthetic pair
`("inprogress", "Manifest not ready")`; any other successful response
returns `manifest.get("status")` and `manifest.get("progress", "N/A")`
verbatim; a non-2xx response raises a network error. -/
def get_svf_translation_status : ManifestResp → Except Err (Option String × String)
  | ManifestResp.notReady => Except.ok (some "inprogress", "Manifest not ready")
  | ManifestResp.ok st pr => Except.ok (st, pr.getD "N/A")
  | ManifestResp.httpError => Except.error Err.network

/-- Outcome of one Design Automation status probe inside a poll loop:
either `get_da_work_item_status` raises a network error (`err`), or it
returns a payload `data`; `reportOk` records whether the subsequent
`requests.get(reportUrl)` (performed only when `reportUrl` is present and
the status is terminal) succeeds. -/
inductive DAProbe
  | err
  | ok (data : DAData) (reportOk : Bool)
deriving Repr, DecidableEq

/-- `md_status in ["success", "failed"]` (main.py line 272). -/
def mdStatusTerminal (st : Option String) : Bool :=
  st == some "success" || st == some "failed"

/-- `da_status in ["success", "failed", "cancelled", "failedUpload"]`
(main.py line 285). -/
def daStatusTerminal (st : String) : Bool :=
  ["success", "failed", "cancelled", "failedUpload"].contains st

/-- State of the dual-job loop of `main` (main.py lines 265-301): the two
completion flags and the saved final Design Automation payload. -/
structure LoopState where
  mdFinished : Bool
  daFinished : Bool
  daFinalStatus : Option DAData
deriving Repr, DecidableEq

/-- Initial loop state (`md_finished, da_finished = False, False`,
`da_final_status = None`). -/
def initState : LoopState := ⟨false, false, none⟩

/-- The body of `try: ... except RequestException` for the MD track in one
iteration of `main`'s loop (main.py lines 269-277), given the manifest
response: returns the updated state and, when `md_status == "failed"`, the
`RuntimeError` that escapes the loop. A network error from the probe is
caught and leaves the state unchanged. -/
def mdStep (s : LoopState) (mresp : ManifestResp) : LoopState × Option Err :=
  match get_svf_translation_status mresp with
  | Except.error _ => (s, none)
  | Except.ok (st, _) =>
    if mdStatusTerminal st then
      let s1 := { s with mdFinished := true }
      if st == some "failed" then
        (s1, some (Err.runtime "Model Derivative translation failed!"))
      else (s1, none)
    else (s, none)

/-- The body of `try: ... except RequestException` for the DA track in one
iteration of `main`'s loop (main.py lines 280-298). On a terminal status the
flags and `da_final_status` are assigned before the optional report fetch;
if that fetch raises, the exception is caught by the same handler, so the
`RuntimeError` for a non-success status is skipped. -/
def daStep (s : LoopState) (dp : DAProbe) : LoopState × Option Err :=
  match dp with
  | DAProbe.err => (s, none)
  | DAProbe.ok d reportOk =>
    if daStatusTerminal d.status then
      let s1 := { s with daFinished := true, daFinalStatus := some d }
      match d.reportUrl with
      | some _ =>
        if reportOk then
          if d.status ≠ "success" then
            (s1, some (Err.runtime
              ("Design Automation work item failed with status: " ++ d.status)))
          else (s1, none)
        else (s1, none)
      | none =>
        if d.status ≠ "success" then
          (s1, some (Err.runtime
            ("Design Automation work item failed with status: " ++ d.status)))
        else (s1, none)
    else (s, none)

/-- `if not md_finished:` guard around the MD probe, with its event. -/
def mdPart (s : LoopState) (mresp : ManifestResp) :
    List Event × LoopState × Option Err :=
  if s.mdFinished then ([], s, none)
  else ([Event.probeMD], (mdStep s mresp).1, (mdStep s mresp).2)

/-- `if not da_finished:` guard around the DA probe, with its event. -/
def daPart (s : LoopState) (dp : DAProbe) :
    List Event × LoopState × Option Err :=
  if s.daFinished then ([], s, none)
  else ([Event.probeDA], (daStep s dp).1, (daStep s dp).2)

/-- `if not md_finished or not da_finished: time.sleep(10)` (main.py lines
300-301), evaluated on the flags as they stand after the probes. -/
def sleepPart (s : LoopState) : List Event :=
  if s.mdFinished && s.daFinished then [] else [Event.sleep 10]

/-- The probe inputs consumed by one iteration of the dual-job loop. -/
structure IterInput where
  mp : ManifestResp
  dp : DAProbe
deriving Repr, DecidableEq

/-- One iteration of the dual-job loop body (main.py lines 267-301): the MD
track is processed first; an uncaught `RuntimeError` from it exits at once
(the DA probe and the sleep are skipped); otherwise the DA track is
processed, and an uncaught `RuntimeError` from it exits before the sleep. -/
def stepIter (s : LoopState) (inp : IterInput) : List Event × LoopState × Option Err :=
  match mdPart s inp.mp with
  | (em, s1, some e) => (em, s1, some e)
  | (em, s1, none) =>
    match daPart s1 inp.dp with
    | (ed, s2, some e) => (em ++ ed, s2, some e)
    | (ed, s2, none) => (em ++ ed ++ sleepPart s2, s2, none)

/-- Result of running the dual-job loop on a finite list of probe inputs:
a `RuntimeError` escaped the loop, the loop exited normally with both
tracks terminal, or the inputs ran out with the loop still going. -/
inductive LoopResult
  | raised (e : Err) (s : LoopState)
  | done (s : LoopState)
  | fuelOut (s : LoopState)
deriving Repr, DecidableEq

/-- `while not md_finished or not da_finished:` (main.py lines 267-301),
driven by a finite list of per-iteration probe inputs. -/
def runLoop : LoopState → List IterInput → List Event × LoopResult
  | s, [] =>
    if s.mdFinished && s.daFinished then ([], LoopResult.done s)
    else ([], LoopResult.fuelOut s)
  | s, inp :: rest =>
    if s.mdFinished && s.daFinished then ([], LoopResult.done s)
    else
      match stepIter s inp with
      | (evs, s1, some e) => (evs, LoopResult.raised e s1)
      | (evs, s1, none) =>
        let (evs2, r) := runLoop s1 rest
        (evs ++ evs2, r)

/-- The code after the dual-job loop (main.py lines 303-313): if the saved
DA status is `"success"`, finalize the sink object with
`stats.bytesUploaded` and download it; otherwise raise the distinct
finalize-precondition `RuntimeError`. Accessing a missing
`stats.bytesUploaded` is a `KeyError`. -/
def postLoop (daFinalStatus : Option DAData) (uploadKey outName : String) :
    List Event × Option Err :=
  match daFinalStatus with
  | some d =>
    if d.status = "success" then
      match d.bytesUploaded with
      | some n => ([Event.finalize outName uploadKey n, Event.download outName], none)
      | none => ([], some (Err.keyError "bytesUploaded"))
    else
      ([], some (Err.runtime
        ("Cannot finalize upload because DA job did not succeed. Final status: "
          ++ d.status)))
  | none =>
    ([], some (Err.runtime
      "Cannot finalize upload because DA job did not succeed. Final status: None"))

/-! ## Single-job poll loops (`generate_pdf_with_da`, `translate_dwg_for_viewer`)

These loops have no `try/except` inside: an exception raised by a status
probe (or by the report fetch) propagates out of the loop to the function's
top-level handler. -/

/-- Result of the `while True:` loop of `generate_pdf_with_da` (main.py
lines 360-377): an exception propagated out of the loop, the `break` was
reached with the saved final payload, or the probe inputs ran out. -/
inductive DARunResult
  | aborted (e : Err)
  | finished (d : DAData)
  | fuelOut
deriving Repr, DecidableEq

/-- The `while True:` poll loop of `generate_pdf_with_da` (main.py lines
360-377). Each iteration probes the WorkItem; a probe exception aborts at
once (no handler inside the loop); a terminal status saves the payload,
fetches the optional report (a fetch exception also aborts), raises
`RuntimeError` when the status is not `"success"`, and otherwise breaks;
a non-terminal status sleeps 10 and continues. -/
def runDALoop : List DAProbe → List Event × DARunResult
  | [] => ([], DARunResult.fuelOut)
  | p :: rest =>
    match p with
    | DAProbe.err => ([Event.probeDA], DARunResult.aborted Err.network)
    | DAProbe.ok d reportOk =>
      if daStatusTerminal d.status then
        match d.reportUrl with
        | some _ =>
          if reportOk then
            if d.status ≠ "success" then
              ([Event.probeDA], DARunResult.aborted (Err.runtime
                ("Design Automation work item failed with status: " ++ d.status)))
            else ([Event.probeDA], DARunResult.finished d)
          else ([Event.probeDA], DARunResult.aborted Err.network)
        | none =>
          if d.status ≠ "success" then
            ([Event.probeDA], DARunResult.aborted (Err.runtime
              ("Design Automation work item failed with status: " ++ d.status)))
          else ([Event.probeDA], DARunResult.finished d)
      else
        let (evs, r) := runDALoop rest
        (Event.probeDA :: Event.sleep 10 :: evs, r)

/-- Overall outcome of `generate_pdf_with_da` past submission: completed,
an exception reached the function's top-level handler, or still polling
when the probe inputs ran out. -/
inductive GenOutcome
  | completed
  | errorCaught (e : Err)
  | stillPolling
deriving Repr, DecidableEq

/-- `generate_pdf_with_da` from its poll loop onward (main.py lines
358-382): run the loop; on normal exit read
`da_final_status["stats"]["bytesUploaded"]` (a `KeyError` when absent) and
invoke `finalize_da_upload` with exactly that size, then download the
result. Any exception reaches only the top-level handler. -/
def generate_pdf_run (probes : List DAProbe) (uploadKey outName : String) :
    List Event × GenOutcome :=
  match runDALoop probes with
  | (evs, DARunResult.aborted e) => (evs, GenOutcome.errorCaught e)
  | (evs, DARunResult.fuelOut) => (evs, GenOutcome.stillPolling)
  | (evs, DARunResult.finished d) =>
    match d.bytesUploaded with
    | some n =>
      (evs ++ [Event.finalize outName uploadKey n, Event.download outName],
        GenOutcome.completed)
    | none => (evs, GenOutcome.errorCaught (Err.keyError "bytesUploaded"))

/-- Result of the `while True:` loop of `translate_dwg_for_viewer`. -/
inductive MDRunResult
  | aborted (e : Err)
  | finished
  | fuelOut
deriving Repr, DecidableEq

/-- The `while True:` poll loop of `translate_dwg_for_viewer` (main.py
lines 420-427). Each iteration calls `get_svf_translation_status`; an
exception from the probe aborts at once (no handler inside the loop);
`"failed"` raises `RuntimeError`; `"success"` breaks; anything else sleeps
10 and continues. -/
def runMDLoop : List ManifestResp → List Event × MDRunResult
  | [] => ([], MDRunResult.fuelOut)
  | m :: rest =>
    match get_svf_translation_status m with
    | Except.error _ => ([Event.probeMD], MDRunResult.aborted Err.network)
    | Except.ok (st, _) =>
      if mdStatusTerminal st then
        if st == some "failed" then
          ([Event.probeMD], MDRunResult.aborted
            (Err.runtime "Model Derivative translation failed!"))
        else ([Event.probeMD], MDRunResult.finished)
      else
        let (evs, r) := runMDLoop rest
        (Event.probeMD :: Event.sleep 10 :: evs, r)

/-! ## Token exchange with `lru_cache(maxsize=1)` (tools.py lines 24-41)

`get_token(client_id, client_secret)` is decorated with
`functools.lru_cache(maxsize=1)`: at most one argument tuple is cached;
a call with the cached tuple is a hit (no outbound authentication call);
any other call performs the exchange and replaces the sole cache entry. -/

/-- The cache state of `lru_cache(maxsize=1)` applied to
`get_token(client_id, client_secret)`: at most one entry, keyed by the
argument pair. -/
structure TokenCache where
  entry : Option ((String × String) × String)
deriving Repr, DecidableEq

/-- One call to the cached `get_token`. `exchange` abstracts the outbound
`POST /authentication/v2/token`; the returned flag records whether that
outbound call was performed (a cache miss). -/
def get_token (exchange : String × String → String) (c : TokenCache)
    (clientId clientSecret : String) : String × TokenCache × Bool :=
  match c.entry with
  | some (k, v) =>
    if k = (clientId, clientSecret) then (v, c, false)
    else
      let t := exchange (clientId, clientSecret)
      (t, ⟨some ((clientId, clientSecret), t)⟩, true)
  | none =>
    let t := exchange (clientId, clientSecret)
    (t, ⟨some ((clientId, clientSecret), t)⟩, true)

/-- Run a sequence of `get_token` calls, recording for each whether an
outbound authentication call was made. -/
def runTokenCalls (exchange : String × String → String) :
    TokenCache → List (String × String) → List Bool
  | _, [] => []
  | c, (cid, cs) :: rest =>
    match get_token exchange c cid cs with
    | (_, c1, made) => made :: runTokenCalls exchange c1 rest

/-! ## Two-phase OSS upload (`upload_file_via_s3`, main.py lines 61-84;
`upload_to_OSS`, tools.py lines 57-80)

Both functions run the same protocol: GET a pre-signed upload target,
PUT the full byte payload to `urls[0]`, then POST `uploadKey` and
`size = len(file_content)` back to the same endpoint; the `objectId` from
the finalize response is returned only after `raise_for_status` passed on
all three responses. Bytes are modelled as `List Nat`. -/

/-- The JSON of the pre-sign response: the list of signed URLs and the
`uploadKey`. -/
structure SignedUploadData where
  urls : List String
  uploadKey : String
deriving Repr, DecidableEq

/-- Observable requests of the two-phase upload. -/
inductive UEvent
  | presignGet (bucketKey objectName : String)
  | put (url : String) (payload : List Nat)
  | finalizePost (bucketKey objectName uploadKey : String) (size : Nat)
deriving Repr, DecidableEq

/-- Abstracted network responses for the three upload requests:
`presignResp` is the pre-sign response (or a `raise_for_status` failure),
`putOk` whether the S3 PUT succeeds, `finalizeResp` the finalize response
carrying the `objectId` (or a failure). -/
structure UploadNet where
  presignResp : Except Unit SignedUploadData
  putOk : Bool
  finalizeResp : Except Unit String
deriving Repr

/-- `upload_to_OSS(token, object_name, file_content, bucket_key)` /
`upload_file_via_s3`: returns the event trace and either the `objectId` or
the exception that aborted the upload (`signed_url_data["urls"][0]` on an
empty list is an `IndexError`, modelled as a `KeyError` on `"urls[0]"`). -/
def upload_to_OSS (net : UploadNet) (bucketKey objectName : String)
    (fileContent : List Nat) : List UEvent × Except Err String :=
  match net.presignResp with
  | Except.error _ =>
    ([UEvent.presignGet bucketKey objectName], Except.error Err.network)
  | Except.ok sd =>
    match sd.urls.head? with
    | none =>
      ([UEvent.presignGet bucketKey objectName], Except.error (Err.keyError "urls[0]"))
    | some u =>
      if net.putOk then
        match net.finalizeResp with
        | Except.ok oid =>
          ([UEvent.presignGet bucketKey objectName, UEvent.put u fileContent,
            UEvent.finalizePost bucketKey objectName sd.uploadKey fileContent.length],
            Except.ok oid)
        | Except.error _ =>
          ([UEvent.presignGet bucketKey objectName, UEvent.put u fileContent,
            UEvent.finalizePost bucketKey objectName sd.uploadKey fileContent.length],
            Except.error Err.network)
      else
        ([UEvent.presignGet bucketKey objectName, UEvent.put u fileContent],
          Except.error Err.network)

/-! ## URN encoding (`safe_base64_encode`, main.py lines 148-149 / tools.py
lines 83-84)

`base64.urlsafe_b64encode(text.encode()).decode().strip("=")`: UTF-8
encode the object id, base64-encode it with the URL-safe alphabet
(`-`/`_` in place of `+`/`/`), then strip `=` characters from both ends of
the result (which, for base64 output, removes exactly the padding). -/

/-- The URL-safe base64 alphabet, indexed 0..63. -/
def b64url_alphabet : List Char :=
  "ABCDEFGHIJKLMNOPQRSTUVWXYZabcdefghijklmnopqrstuvwxyz0123456789-_".toList

/-- List lookup with a default, by recursion. -/
def charListGetD : List Char → Nat → Char
  | [], _ => '?'
  | c :: _, 0 => c
  | _ :: t, n + 1 => charListGetD t n

/-- The alphabet character for a 6-bit value. -/
def b64char (n : Nat) : Char := charListGetD b64url_alphabet n

/-- The base64 body (everything except the `=` padding) of a byte list:
each 3-byte group yields 4 alphabet characters; a trailing 1- or 2-byte
group yields 2 or 3 characters. -/
def b64encodeBody : List Nat → List Char
  | [] => []
  | [b1] => [b64char (b1 / 4), b64char (b1 % 4 * 16)]
  | [b1, b2] =>
    [b64char (b1 / 4), b64char (b1 % 4 * 16 + b2 / 16), b64char (b2 % 16 * 4)]
  | b1 :: b2 :: b3 :: rest =>
    b64char (b1 / 4) :: b64char (b1 % 4 * 16 + b2 / 16) ::
      b64char (b2 % 16 * 4 + b3 / 64) :: b64char (b3 % 64) :: b64encodeBody rest

/-- The `=` padding appended by `base64.urlsafe_b64encode`, determined by
the byte count modulo 3. -/
def b64pad (len : Nat) : List Char :=
  if len % 3 = 1 then ['=', '=']
  else if len % 3 = 2 then ['=']
  else []

/-- Python `str.strip("=")`: remove `=` characters from both ends. -/
def stripEq (l : List Char) : List Char :=
  ((l.dropWhile (fun c => c == '=')).reverse.dropWhile (fun c => c == '=')).reverse

/-- UTF-8 encoding of a single code point (Python `str.encode()`). -/
def utf8EncodeChar (c : Nat) : List Nat :=
  if c < 128 then [c]
  else if c < 2048 then [192 + c / 64, 128 + c % 64]
  else if c < 65536 then [224 + c / 4096, 128 + c / 64 % 64, 128 + c % 64]
  else [240 + c / 262144, 128 + c / 4096 % 64, 128 + c / 64 % 64, 128 + c % 64]

/-- `text.encode()`: the UTF-8 bytes of a string. -/
def strBytes (s : String) : List Nat :=
  (s.toList.map (fun c => utf8EncodeChar c.toNat)).flatten

/-- `safe_base64_encode(text)`:
`base64.urlsafe_b64encode(text.encode()).decode().strip("=")`. -/
def safe_base64_encode (text : String) : String :=
  String.mk (stripEq (b64encodeBody (strBytes text) ++ b64pad (strBytes text).length))

/-! ## Helper lemmas -/

/-- The finalize-precondition message never coincides with a
work-item-failure message, whatever the interpolated statuses. -/
theorem cannot_ne_daFailed (s t : String) :
    ("Cannot finalize upload because DA job did not succeed. Final status: " ++ s) ≠
      ("Design Automation work item failed with status: " ++ t) := by
  obtain ⟨ls⟩ := s
  obtain ⟨lt⟩ := t
  intro h
  have hC : (("Cannot finalize upload because DA job did not succeed. Final status: " :
      String) ++ String.mk ls).data.head? = some 'C' := rfl
  rw [h] at hC
  have hD : (("Design Automation work item failed with status: " : String) ++
      String.mk lt).data.head? = some 'D' := rfl
  rw [hD] at hC
  exact absurd hC (by decide)

/-- The finalize-precondition message never coincides with the Model
Derivative failure message. -/
theorem cannot_ne_mdFailed (s : String) :
    ("Cannot finalize upload because DA job did not succeed. Final status: " ++ s) ≠
      "Model Derivative translation failed!" := by
  obtain ⟨ls⟩ := s
  intro h
  have hC : (("Cannot finalize upload because DA job did not succeed. Final status: " :
      String) ++ String.mk ls).data.head? = some 'C' := rfl
  rw [h] at hC
  exact absurd hC (by decide)

/-- `mdPart` emits no sleep event. -/
theorem sleep_not_mem_mdPart (s : LoopState) (m : ManifestResp) :
    Event.sleep 10 ∉ (mdPart s m).1 := by
  unfold mdPart
  split <;> simp

/-- `daPart` emits no sleep event. -/
theorem sleep_not_mem_daPart (s : LoopState) (dp : DAProbe) :
    Event.sleep 10 ∉ (daPart s dp).1 := by
  unfold daPart
  split <;> simp

/-- An MD probe whose request raises leaves the state unchanged and
raises nothing out of its handler. -/
theorem mdPart_httpError (s : LoopState) (h : s.mdFinished = false) :
    mdPart s ManifestResp.httpError = ([Event.probeMD], s, none) := by
  simp [mdPart, mdStep, get_svf_translation_status, h]

/-- A DA probe whose request raises leaves the state unchanged and raises
nothing out of its handler. -/
theorem daPart_err (s : LoopState) :
    daPart s DAProbe.err = ((if s.daFinished then [] else [Event.probeDA]), s, none) := by
  by_cases h : s.daFinished
  · simp [daPart, h]
  · simp [daPart, daStep, h]

/-- Events classified as deferred-finalize invocations. -/
def isFinalizeEv : Event → Bool
  | Event.finalize _ _ _ => true
  | _ => false

/-- Events classified as WorkItem status probes. -/
def isProbeDAEv : Event → Bool
  | Event.probeDA => true
  | _ => false

/-- The single-job DA poll loop itself never invokes finalize. -/
theorem runDALoop_no_finalize (probes : List DAProbe) :
    (runDALoop probes).1.countP isFinalizeEv = 0 := by
  induction probes with
  | nil => rfl
  | cons p rest ih =>
    cases p with
    | err => rfl
    | ok d rOk =>
      rcases h : runDALoop rest with ⟨evs, r⟩
      rw [h] at ih
      by_cases ht : daStatusTerminal d.status
      · cases hrep : d.reportUrl with
        | none =>
          by_cases hs : d.status = "success"
          · simp only [runDALoop, ht, if_true]
            simp [hrep, hs, isFinalizeEv]
          · simp [runDALoop, ht, hrep, hs, isFinalizeEv]
        | some u =>
          cases rOk with
          | false =>
            simp only [runDALoop, ht, if_true]
            simp [hrep, isFinalizeEv]
          | true =>
            by_cases hs : d.status = "success"
            · simp only [runDALoop, ht, if_true]
              simp [hrep, hs, isFinalizeEv]
            · simp [runDALoop, ht, hrep, hs, isFinalizeEv]
      · simp [runDALoop, ht, h, List.countP_cons, isFinalizeEv, ih]

/-- A defaulted lookup never returns a value outside the list or the
default. -/
theorem charListGetD_ne (l : List Char) (x : Char) (hx : '?' ≠ x)
    (hl : ∀ a ∈ l, a ≠ x) : ∀ n, charListGetD l n ≠ x := by
  induction l with
  | nil => intro n; cases n <;> exact hx
  | cons a t ih =>
    intro n
    cases n with
    | zero => exact hl a (List.mem_cons_self a t)
    | succ m => exact ih (fun b hb => hl b (List.mem_cons_of_mem _ hb)) m

/-- No 6-bit value encodes to the padding character. -/
theorem b64char_ne_eq (n : Nat) : b64char n ≠ '=' := by
  unfold b64char
  exact charListGetD_ne b64url_alphabet '=' (by decide) (by decide) n

/-- Every character of the base64 body comes from the alphabet, never the
padding character. -/
theorem mem_b64encodeBody_ne : ∀ (bs : List Nat), ∀ c ∈ b64encodeBody bs, c ≠ '='
  | [] => by simp [b64encodeBody]
  | [b1] => by
    intro c hc
    simp [b64encodeBody] at hc
    rcases hc with h | h <;> (subst h; exact b64char_ne_eq _)
  | [b1, b2] => by
    intro c hc
    simp [b64encodeBody] at hc
    rcases hc with h | h | h <;> (subst h; exact b64char_ne_eq _)
  | b1 :: b2 :: b3 :: rest => by
    intro c hc
    simp [b64encodeBody] at hc
    rcases hc with h | h | h | h | h
    · subst h; exact b64char_ne_eq _
    · subst h; exact b64char_ne_eq _
    · subst h; exact b64char_ne_eq _
    · subst h; exact b64char_ne_eq _
    · exact mem_b64encodeBody_ne rest c h

/-- `dropWhile` over a block that wholly satisfies the predicate skips it. -/
theorem dropWhile_append_all {α : Type} (p : α → Bool) (l1 l2 : List α)
    (h : ∀ x ∈ l1, p x = true) : (l1 ++ l2).dropWhile p = l2.dropWhile p := by
  induction l1 with
  | nil => rfl
  | cons a t ih =>
    have ha : p a = true := h a (List.mem_cons_self a t)
    simp only [List.cons_append, List.dropWhile_cons, ha, if_true]
    exact ih (fun x hx => h x (List.mem_cons_of_mem _ hx))

/-- `dropWhile` over a list none of whose elements satisfy the predicate
is the identity. -/
theorem dropWhile_of_all_false {α : Type} (p : α → Bool) (l : List α)
    (h : ∀ x ∈ l, p x = false) : l.dropWhile p = l := by
  cases l with
  | nil => rfl
  | cons a t => simp [List.dropWhile_cons, h a (List.mem_cons_self a t)]

/-- The padding appended by the encoder is all `'='`. -/
theorem b64pad_all_eq (n : Nat) : ∀ c ∈ b64pad n, (c == '=') = true := by
  unfold b64pad
  split
  · intro c hc
    simp at hc
    simp [hc]
  · split
    · intro c hc
      simp at hc
      simp [hc]
    · intro c hc
      simp at hc

/-- `strip("=")` on an `'='`-free body followed by all-`'='` padding
returns exactly the body. -/
theorem stripEq_body_pad (body pad : List Char)
    (hb : ∀ c ∈ body, (c == '=') = false)
    (hp : ∀ c ∈ pad, (c == '=') = true) :
    stripEq (body ++ pad) = body := by
  cases body with
  | nil =>
    have hdrop : List.dropWhile (fun c => c == '=') pad = [] := by
      have h2 := dropWhile_append_all (fun c => c == '=') pad [] hp
      simpa using h2
    simp [stripEq, hdrop]
  | cons a t =>
    have ha : (a == '=') = false := hb a (List.mem_cons_self a t)
    unfold stripEq
    have h1 : List.dropWhile (fun c => c == '=') ((a :: t) ++ pad) = (a :: t) ++ pad := by
      simp [List.dropWhile_cons, ha]
    rw [h1, List.reverse_append,
      dropWhile_append_all (fun c => c == '=') pad.reverse (a :: t).reverse
        (fun x hx => hp x (List.mem_reverse.1 hx)),
      dropWhile_of_all_false (fun c => c == '=') (a :: t).reverse
        (fun x hx => hb x (List.mem_reverse.1 hx)),
      List.reverse_reverse]

/-! ## Claim theorems -/

/-- C3: a transient network error on a probe in the dual-job loop is
caught: it does not mark that track terminal, does not stop the other
track's probing in the same iteration, and exits the loop only if the
other track itself raises. First conjunct: with an MD probe error the
iteration is exactly the DA track's processing (state untouched on the MD
side). Second conjunct: with a DA probe error the iteration is exactly the
MD track's processing followed by an inert DA probe. Third conjunct: with
errors on both tracks on every iteration, the loop probes both tracks on
each of the `n` iterations and never terminates or changes state — there
is no retry bound. -/
theorem mainLoop_transient_error_retry :
    (∀ (s : LoopState) (dp : DAProbe), s.mdFinished = false →
      stepIter s ⟨ManifestResp.httpError, dp⟩ =
        (match daPart s dp with
         | (ed, s2, some e) => (Event.probeMD :: ed, s2, some e)
         | (ed, s2, none) => (Event.probeMD :: (ed ++ sleepPart s2), s2, none))) ∧
    (∀ (s : LoopState) (mp : ManifestResp),
      stepIter s ⟨mp, DAProbe.err⟩ =
        (match mdPart s mp with
         | (em, s1, some e) => (em, s1, some e)
         | (em, s1, none) =>
           (em ++ (if s1.daFinished then [] else [Event.probeDA]) ++ sleepPart s1,
             s1, none))) ∧
    (∀ (n : Nat) (s : LoopState), s.mdFinished = false → s.daFinished = false →
      runLoop s (List.replicate n ⟨ManifestResp.httpError, DAProbe.err⟩) =
        ((List.replicate n [Event.probeMD, Event.probeDA, Event.sleep 10]).flatten,
          LoopResult.fuelOut s)) := by
  refine ⟨?_, ?_, ?_⟩
  · intro s dp hmd
    rcases hd : daPart s dp with ⟨ed, s2, e2⟩
    cases e2 with
    | some e => simp [stepIter, mdPart_httpError s hmd, hd]
    | none => simp [stepIter, mdPart_httpError s hmd, hd]
  · intro s mp
    rcases hm : mdPart s mp with ⟨em, s1, e1⟩
    cases e1 with
    | some e => simp [stepIter, hm]
    | none => simp [stepIter, hm, daPart_err]
  · intro n s hmd hda
    have hstep : stepIter s ⟨ManifestResp.httpError, DAProbe.err⟩ =
        ([Event.probeMD, Event.probeDA, Event.sleep 10], s, none) := by
      simp [stepIter, mdPart_httpError s hmd, daPart_err, hda, sleepPart, hmd]
    induction n with
    | zero => simp [runLoop, hmd]
    | succ k ih =>
      simp only [List.replicate_succ, runLoop, hmd, Bool.false_and, Bool.false_eq_true,
        if_false, hstep, ih, List.flatten_cons]

/-- Witness for C3: two all-error iterations probe both tracks twice and
leave the loop running with the initial state. -/
theorem mainLoop_transient_error_retry_witness :
    runLoop initState (List.replicate 2 ⟨ManifestResp.httpError, DAProbe.err⟩) =
      ((List.replicate 2 [Event.probeMD, Event.probeDA, Event.sleep 10]).flatten,
        LoopResult.fuelOut initState) :=
  mainLoop_transient_error_retry.2.2 2 initState rfl rfl

/-- C9: the single-shot translation status probe maps an HTTP 202 manifest
response to the synthetic result (status `"inprogress"`, progress
`"Manifest not ready"`) without raising, and for any other successful
response it returns the manifest's own `status` and `progress` fields
verbatim. -/
theorem get_svf_translation_status_202_and_verbatim :
    get_svf_translation_status ManifestResp.notReady =
        Except.ok (some "inprogress", "Manifest not ready") ∧
      ∀ (st : Option String) (pr : String),
        get_svf_translation_status (ManifestResp.ok st (some pr)) = Except.ok (st, pr) :=
  ⟨rfl, fun _ _ => rfl⟩

/-- C6: if after the dual-job loop the recorded WorkItem status is not
`"success"`, the orchestrator raises the finalize-precondition error with
no finalize and no download event, and that error is distinguishable from
either generic job-failure error. -/
theorem postLoop_finalize_precondition_error (d : DAData) (uploadKey outName : String)
    (h : d.status ≠ "success") :
    postLoop (some d) uploadKey outName =
      ([], some (Err.runtime
        ("Cannot finalize upload because DA job did not succeed. Final status: " ++
          d.status))) ∧
    (∀ st : String,
      Err.runtime
          ("Cannot finalize upload because DA job did not succeed. Final status: " ++
            d.status) ≠
        Err.runtime ("Design Automation work item failed with status: " ++ st)) ∧
    Err.runtime
        ("Cannot finalize upload because DA job did not succeed. Final status: " ++
          d.status) ≠
      Err.runtime "Model Derivative translation failed!" := by
  refine ⟨?_, ?_, ?_⟩
  · simp [postLoop, h]
  · intro st hEq
    injection hEq with hm
    exact cannot_ne_daFailed d.status st hm
  · intro hEq
    injection hEq with hm
    exact cannot_ne_mdFailed d.status hm

/-- Witness for C6 at the concrete final status `"failed"`. -/
theorem postLoop_finalize_precondition_error_witness :
    postLoop (some ⟨"failed", none, none⟩) "UPKEY" "result.pdf" =
      ([], some (Err.runtime
        ("Cannot finalize upload because DA job did not succeed. Final status: " ++
          "failed"))) :=
  (postLoop_finalize_precondition_error ⟨"failed", none, none⟩ "UPKEY" "result.pdf"
    (by decide)).1

/-- C5 (amended): `lru_cache(maxsize=1)` keeps exactly the most recent
credential pair: a call with the cached pair is a hit (cached token, no
outbound call, cache unchanged), after any call the cache holds exactly
that call's pair, and a call with a distinct pair performs an outbound
exchange (evicting the previous entry). -/
theorem get_token_lru1_cache (exchange : String × String → String) :
    (∀ (k : String × String) (t : String),
        get_token exchange ⟨some (k, t)⟩ k.1 k.2 = (t, ⟨some (k, t)⟩, false)) ∧
    (∀ (c : TokenCache) (cid cs : String),
        (get_token exchange c cid cs).2.1 =
          ⟨some ((cid, cs), (get_token exchange c cid cs).1)⟩) ∧
    (∀ (k k2 : String × String) (t : String), k ≠ k2 →
        (get_token exchange ⟨some (k, t)⟩ k2.1 k2.2).2.2 = true) := by
  refine ⟨?_, ?_, ?_⟩
  · intro k t
    simp [get_token]
  · intro c cid cs
    obtain ⟨entry⟩ := c
    cases entry with
    | none => simp [get_token]
    | some kv =>
      obtain ⟨k, v⟩ := kv
      by_cases hk : k = (cid, cs)
      · simp [get_token, hk]
      · simp [get_token, hk]
  · intro k k2 t hne
    have hne2 : ¬ (k = (k2.1, k2.2)) := by simpa using hne
    simp [get_token, hne2]

/-- Witness for C5's amended theorem: a call with a pair distinct from the
cached one performs an outbound authentication call. -/
theorem get_token_lru1_cache_witness :
    (get_token (fun _ => "tok") ⟨some (("a", "sa"), "tok")⟩ "b" "sb").2.2 = true :=
  (get_token_lru1_cache (fun _ => "tok")).2.2 ("a", "sa") ("b", "sb") "tok" (by decide)

/-- Counterexample for C5 as stated: with calls for pair `("a","sa")`,
then `("b","sb")`, then `("a","sa")` again, all three calls perform an
outbound authentication call — the third call does not reuse the first
call's cached token, because the interleaved distinct pair evicted the
single-entry cache. -/
theorem get_token_interleaved_eviction_cex :
    runTokenCalls (fun _ => "tok") ⟨none⟩ [("a", "sa"), ("b", "sb"), ("a", "sa")] =
      [true, true, true] := by decide

/-- C7: whenever the two-phase upload returns an object id, its trace is
exactly: pre-sign request, one PUT of the full payload to the pre-signed
URL, and one finalize POST carrying the pre-sign step's `uploadKey` and a
size equal to the payload length — and the finalize response succeeded
with that very object id. -/
theorem upload_two_phase_finalize_exact (net : UploadNet) (bucketKey objectName : String)
    (content : List Nat) (oid : String) (sd : SignedUploadData) (u : String)
    (hpre : net.presignResp = Except.ok sd) (hu : sd.urls.head? = some u)
    (hok : (upload_to_OSS net bucketKey objectName content).2 = Except.ok oid) :
    (upload_to_OSS net bucketKey objectName content).1 =
      [UEvent.presignGet bucketKey objectName, UEvent.put u content,
        UEvent.finalizePost bucketKey objectName sd.uploadKey content.length] ∧
    net.putOk = true ∧ net.finalizeResp = Except.ok oid := by
  unfold upload_to_OSS at hok ⊢
  simp only [hpre, hu] at hok ⊢
  cases hput : net.putOk with
  | false =>
    simp only [hput, Bool.false_eq_true, if_false] at hok
    simp at hok
  | true =>
    simp only [hput, if_true] at hok ⊢
    cases hfin : net.finalizeResp with
    | error e =>
      simp only [hfin] at hok
      simp at hok
    | ok oid2 =>
      simp only [hfin] at hok ⊢
      simp at hok
      subst hok
      refine ⟨?_, ?_, ?_⟩ <;> trivial

/-- Counterexample for C1 as stated: with the translation probe returning
a non-terminal `"pending"` and the WorkItem probe returning `"failed"` (no
report URL), the dual-job loop raises the consolidated `RuntimeError` at
once, while the translation track is still non-terminal
(`mdFinished = false`) — it is not driven to a terminal state first, and
no further probes occur. -/
theorem mainLoop_da_failure_aborts_md_cex :
    runLoop initState [⟨ManifestResp.ok (some "pending") none,
        DAProbe.ok ⟨"failed", none, none⟩ true⟩] =
      ([Event.probeMD, Event.probeDA],
        LoopResult.raised
          (Err.runtime "Design Automation work item failed with status: failed")
          ⟨false, true, some ⟨"failed", none, none⟩⟩) := by decide

/-- C1 (amended): a track reaching a failed terminal state makes the
orchestrator raise the workflow-level `RuntimeError` immediately from
inside the loop, aborting the other track's polling while that track may
still be non-terminal — with one exception. First conjunct: a WorkItem
probe returning any terminal non-success status (`failed`, `cancelled`,
`failedUpload`), whose optional report fetch does not raise (no report
URL, or the fetch succeeds), raises at once with the translation flags
untouched. Second conjunct: a translation `failed` raises at once without
even probing the WorkItem track in that iteration. Third conjunct (the
exception, main.py lines 288-298): a WorkItem terminal non-success
payload whose report fetch raises has the exception caught by the
network-error handler, so the `RuntimeError` is skipped and the loop
continues — but the WorkItem track is already marked terminal with the
payload recorded. -/
theorem mainLoop_track_failure_immediate_abort :
    (∀ (s : LoopState) (pr : Option String) (d : DAData) (rOk : Bool)
        (rest : List IterInput),
      s.mdFinished = false → s.daFinished = false →
      daStatusTerminal d.status = true → d.status ≠ "success" →
      (d.reportUrl = none ∨ rOk = true) →
      runLoop s (⟨ManifestResp.ok (some "inprogress") pr, DAProbe.ok d rOk⟩ :: rest) =
        ([Event.probeMD, Event.probeDA],
          LoopResult.raised
            (Err.runtime ("Design Automation work item failed with status: " ++ d.status))
            { s with daFinished := true, daFinalStatus := some d })) ∧
    (∀ (s : LoopState) (pr : Option String) (dp : DAProbe) (rest : List IterInput),
      s.mdFinished = false →
      runLoop s (⟨ManifestResp.ok (some "failed") pr, dp⟩ :: rest) =
        ([Event.probeMD],
          LoopResult.raised (Err.runtime "Model Derivative translation failed!")
            { s with mdFinished := true })) ∧
    (∀ (s : LoopState) (pr : Option String) (u : String) (d : DAData),
      s.mdFinished = false → s.daFinished = false →
      daStatusTerminal d.status = true → d.reportUrl = some u →
      stepIter s ⟨ManifestResp.ok (some "inprogress") pr, DAProbe.ok d false⟩ =
        ([Event.probeMD, Event.probeDA, Event.sleep 10],
          { s with daFinished := true, daFinalStatus := some d }, none)) := by
  refine ⟨?_, ?_, ?_⟩
  · intro s pr d rOk rest hmd hda ht hs hrep
    rcases hrep with hnone | hok
    · simp [runLoop, stepIter, mdPart, daPart, mdStep, daStep, get_svf_translation_status,
        mdStatusTerminal, hmd, hda, ht, hs, hnone]
    · subst hok
      rcases hru : d.reportUrl with _ | u
      · simp [runLoop, stepIter, mdPart, daPart, mdStep, daStep, get_svf_translation_status,
          mdStatusTerminal, hmd, hda, ht, hs, hru]
      · simp [runLoop, stepIter, mdPart, daPart, mdStep, daStep, get_svf_translation_status,
          mdStatusTerminal, hmd, hda, ht, hs, hru]
  · intro s pr dp rest hmd
    simp [runLoop, stepIter, mdPart, mdStep, get_svf_translation_status,
      mdStatusTerminal, hmd]
  · intro s pr u d hmd hda ht hru
    simp [stepIter, mdPart, daPart, mdStep, daStep, get_svf_translation_status,
      mdStatusTerminal, sleepPart, hmd, hda, ht, hru]

/-- Witness for C1's amended theorem: a concrete WorkItem run terminating
`"cancelled"` with no report URL aborts the loop at once. -/
theorem mainLoop_track_failure_immediate_abort_witness :
    runLoop initState [⟨ManifestResp.ok (some "inprogress") none,
        DAProbe.ok ⟨"cancelled", none, none⟩ true⟩] =
      ([Event.probeMD, Event.probeDA],
        LoopResult.raised
          (Err.runtime ("Design Automation work item failed with status: " ++ "cancelled"))
          { initState with
            daFinished := true
            daFinalStatus := some ⟨"cancelled", none, none⟩ }) :=
  mainLoop_track_failure_immediate_abort.1 initState none ⟨"cancelled", none, none⟩ true []
    rfl rfl (by decide) (by decide) (Or.inl rfl)

/-- Counterexample for C4 as stated: in an iteration whose probes leave
the translation track terminal (`"success"`) and the WorkItem track
non-terminal (`"pending"`), the loop still sleeps 10 before the next
iteration, although one track is already terminal. -/
theorem mainLoop_sleep_one_terminal_cex :
    stepIter initState ⟨ManifestResp.ok (some "success") (some "complete"),
        DAProbe.ok ⟨"pending", none, none⟩ true⟩ =
      ([Event.probeMD, Event.probeDA, Event.sleep 10], ⟨true, false, none⟩, none) := by
  decide

/-- C4 (amended): in each non-raising iteration of the dual-job loop, the
fixed 10-time-unit sleep executes if and only if NOT BOTH tracks are
terminal after that iteration's probes (the code sleeps whenever at least
one track is still pending, and skips the sleep only when both are
terminal). -/
theorem mainLoop_sleep_iff_not_both_terminal (s : LoopState) (inp : IterInput)
    (h : (stepIter s inp).2.2 = none) :
    Event.sleep 10 ∈ (stepIter s inp).1 ↔
      ¬((stepIter s inp).2.1.mdFinished = true ∧
        (stepIter s inp).2.1.daFinished = true) := by
  unfold stepIter at h ⊢
  rcases hm : mdPart s inp.mp with ⟨em, s1, e1⟩
  simp only [hm] at h ⊢
  cases e1 with
  | some e => simp at h
  | none =>
    rcases hd : daPart s1 inp.dp with ⟨ed, s2, e2⟩
    simp only [hd] at h ⊢
    cases e2 with
    | some e => simp at h
    | none =>
      have h1 : Event.sleep 10 ∉ em := by
        have h0 := sleep_not_mem_mdPart s inp.mp
        rw [hm] at h0
        exact h0
      have h2 : Event.sleep 10 ∉ ed := by
        have h0 := sleep_not_mem_daPart s1 inp.dp
        rw [hd] at h0
        exact h0
      simp only [List.mem_append]
      unfold sleepPart
      cases hmd : s2.mdFinished <;> cases hda : s2.daFinished <;> simp_all

/-- Witness for C4's amended theorem: an iteration with both tracks still
pending sleeps. -/
theorem mainLoop_sleep_iff_not_both_terminal_witness :
    Event.sleep 10 ∈ (stepIter initState ⟨ManifestResp.ok (some "pending") none,
        DAProbe.ok ⟨"pending", none, none⟩ true⟩).1 ↔
      ¬((stepIter initState ⟨ManifestResp.ok (some "pending") none,
          DAProbe.ok ⟨"pending", none, none⟩ true⟩).2.1.mdFinished = true ∧
        (stepIter initState ⟨ManifestResp.ok (some "pending") none,
          DAProbe.ok ⟨"pending", none, none⟩ true⟩).2.1.daFinished = true) :=
  mainLoop_sleep_iff_not_both_terminal initState
    ⟨ManifestResp.ok (some "pending") none, DAProbe.ok ⟨"pending", none, none⟩ true⟩
    (by decide)

/-- Counterexample for C2 as stated: a run of `generate_pdf_with_da` in
which the WorkItem reaches terminal status `"success"` (with
`bytesUploaded` 4096 and a report URL) but the report fetch raises — the
workflow aborts with the network error and finalize is invoked zero
times, not exactly once. -/
theorem generate_pdf_success_no_finalize_cex :
    generate_pdf_run [DAProbe.ok ⟨"success", some "https://report", some 4096⟩ false]
        "UPKEY" "out.pdf" =
      ([Event.probeDA], GenOutcome.errorCaught Err.network) ∧
    (generate_pdf_run [DAProbe.ok ⟨"success", some "https://report", some 4096⟩ false]
        "UPKEY" "out.pdf").1.countP isFinalizeEv = 0 := by
  decide

/-- C2 (amended): in every run of `generate_pdf_with_da` in which the
poll loop exits normally with a `"success"` payload carrying
`stats.bytesUploaded = n` (i.e. no exception — such as a failing report
fetch — aborts the run first), the deferred finalize is invoked exactly
once, with size `n` taken verbatim from that payload and never any other
value, after all the probes. In the scenario pending, pending, then
success with `bytesUploaded` 4096, finalize is called with 4096 exactly
once, after exactly three status probes. -/
theorem generate_pdf_finalize_size_amended :
    (∀ (probes : List DAProbe) (uploadKey outName : String) (evs : List Event)
        (d : DAData) (n : Nat),
      runDALoop probes = (evs, DARunResult.finished d) →
      d.bytesUploaded = some n →
      generate_pdf_run probes uploadKey outName =
        (evs ++ [Event.finalize outName uploadKey n, Event.download outName],
          GenOutcome.completed) ∧
      (generate_pdf_run probes uploadKey outName).1.countP isFinalizeEv = 1 ∧
      (∀ (o2 k2 : String) (m : Nat),
        Event.finalize o2 k2 m ∈ (generate_pdf_run probes uploadKey outName).1 →
          o2 = outName ∧ k2 = uploadKey ∧ m = n)) ∧
    (generate_pdf_run
        [DAProbe.ok ⟨"pending", none, none⟩ true, DAProbe.ok ⟨"pending", none, none⟩ true,
          DAProbe.ok ⟨"success", none, some 4096⟩ true] "UPKEY" "out.pdf" =
      ([Event.probeDA, Event.sleep 10, Event.probeDA, Event.sleep 10, Event.probeDA,
        Event.finalize "out.pdf" "UPKEY" 4096, Event.download "out.pdf"],
        GenOutcome.completed) ∧
    (generate_pdf_run
        [DAProbe.ok ⟨"pending", none, none⟩ true, DAProbe.ok ⟨"pending", none, none⟩ true,
          DAProbe.ok ⟨"success", none, some 4096⟩ true]
        "UPKEY" "out.pdf").1.countP isProbeDAEv = 3 ∧
    (generate_pdf_run
        [DAProbe.ok ⟨"pending", none, none⟩ true, DAProbe.ok ⟨"pending", none, none⟩ true,
          DAProbe.ok ⟨"success", none, some 4096⟩ true]
        "UPKEY" "out.pdf").1.countP isFinalizeEv = 1) := by
  constructor
  · intro probes uploadKey outName evs d n hrun hb
    have hevs : evs.countP isFinalizeEv = 0 := by
      have h0 := runDALoop_no_finalize probes
      rw [hrun] at h0
      exact h0
    have hgen : generate_pdf_run probes uploadKey outName =
        (evs ++ [Event.finalize outName uploadKey n, Event.download outName],
          GenOutcome.completed) := by
      simp [generate_pdf_run, hrun, hb]
    refine ⟨hgen, ?_, ?_⟩
    · rw [hgen]
      simp [List.countP_append, hevs, isFinalizeEv, List.countP_cons]
    · intro o2 k2 m hm
      rw [hgen] at hm
      rcases List.mem_append.1 hm with h1 | h2
      · exfalso
        have h3 := List.countP_eq_zero.1 hevs _ h1
        simp [isFinalizeEv] at h3
      · rcases List.mem_cons.1 h2 with h3 | h3
        · injection h3 with e1 e2 e3
          exact ⟨e1, e2, e3⟩
        · simp at h3
  · refine ⟨by decide, by decide, by decide⟩

/-- Witness for C2's amended theorem: the spec scenario itself (pending,
pending, success with 4096). -/
theorem generate_pdf_finalize_size_amended_witness :
    generate_pdf_run
        [DAProbe.ok ⟨"pending", none, none⟩ true, DAProbe.ok ⟨"pending", none, none⟩ true,
          DAProbe.ok ⟨"success", none, some 4096⟩ true] "UPKEY" "out.pdf" =
      ([Event.probeDA, Event.sleep 10, Event.probeDA, Event.sleep 10, Event.probeDA] ++
        [Event.finalize "out.pdf" "UPKEY" 4096, Event.download "out.pdf"],
        GenOutcome.completed) :=
  (generate_pdf_finalize_size_amended.1
    [DAProbe.ok ⟨"pending", none, none⟩ true, DAProbe.ok ⟨"pending", none, none⟩ true,
      DAProbe.ok ⟨"success", none, some 4096⟩ true]
    "UPKEY" "out.pdf"
    [Event.probeDA, Event.sleep 10, Event.probeDA, Event.sleep 10, Event.probeDA]
    ⟨"success", none, some 4096⟩ 4096 (by decide) rfl).1

/-- WorkItem probes that return a payload with a non-terminal status. -/
def daProbeNonTerminal : DAProbe → Bool
  | DAProbe.err => false
  | DAProbe.ok d _ => !(daStatusTerminal d.status)

/-- Manifest responses whose probe returns a non-terminal status without
raising. -/
def mdProbeNonTerminal (m : ManifestResp) : Bool :=
  match get_svf_translation_status m with
  | Except.error _ => false
  | Except.ok (st, _) => !(mdStatusTerminal st)

/-- C10: in the single-job loops of `generate_pdf_with_da` and
`translate_dwg_for_viewer`, a probe that raises a network error is not
caught within the loop: after any number of non-terminal probes, the first
erroring probe immediately ends polling (exactly one more probe event, the
remaining probe inputs are never consumed) and the loop aborts with the
error; in `generate_pdf_with_da` the aborting error reaches only the
top-level handler, so finalize and download are never invoked. -/
theorem single_job_probe_error_aborts :
    (∀ (pre rest : List DAProbe), (∀ p ∈ pre, daProbeNonTerminal p = true) →
      runDALoop (pre ++ DAProbe.err :: rest) =
        ((pre.map (fun _ => [Event.probeDA, Event.sleep 10])).flatten ++ [Event.probeDA],
          DARunResult.aborted Err.network)) ∧
    (∀ (pre rest : List ManifestResp), (∀ m ∈ pre, mdProbeNonTerminal m = true) →
      runMDLoop (pre ++ ManifestResp.httpError :: rest) =
        ((pre.map (fun _ => [Event.probeMD, Event.sleep 10])).flatten ++ [Event.probeMD],
          MDRunResult.aborted Err.network)) ∧
    (∀ (probes : List DAProbe) (uploadKey outName : String) (evs : List Event) (e : Err),
      runDALoop probes = (evs, DARunResult.aborted e) →
      generate_pdf_run probes uploadKey outName = (evs, GenOutcome.errorCaught e)) := by
  refine ⟨?_, ?_, ?_⟩
  · intro pre rest
    induction pre with
    | nil => intro _; simp [runDALoop]
    | cons p t ih =>
      intro hpre
      have hp : daProbeNonTerminal p = true := hpre p (List.mem_cons_self p t)
      have iht := ih (fun q hq => hpre q (List.mem_cons_of_mem _ hq))
      cases p with
      | err => simp [daProbeNonTerminal] at hp
      | ok d rOk =>
        have hterm : daStatusTerminal d.status = false := by
          simpa [daProbeNonTerminal] using hp
        simp [runDALoop, hterm, iht, List.cons_append]
  · intro pre rest
    induction pre with
    | nil => intro _; simp [runMDLoop, get_svf_translation_status]
    | cons m t ih =>
      intro hpre
      have hp : mdProbeNonTerminal m = true := hpre m (List.mem_cons_self m t)
      have iht := ih (fun q hq => hpre q (List.mem_cons_of_mem _ hq))
      cases hg : get_svf_translation_status m with
      | error e =>
        exfalso
        rw [mdProbeNonTerminal, hg] at hp
        simp at hp
      | ok p =>
        obtain ⟨st, pr⟩ := p
        have hterm : mdStatusTerminal st = false := by
          rw [mdProbeNonTerminal, hg] at hp
          simpa using hp
        simp [runMDLoop, hg, hterm, iht, List.cons_append]
  · intro probes uploadKey outName evs e h
    simp [generate_pdf_run, h]

/-- Witness for C10: one pending probe, then an erroring probe, aborts the
DA loop after exactly two probes. -/
theorem single_job_probe_error_aborts_witness :
    runDALoop ([DAProbe.ok ⟨"pending", none, none⟩ true] ++ DAProbe.err :: []) =
      (([DAProbe.ok ⟨"pending", none, none⟩ true].map
          (fun _ => [Event.probeDA, Event.sleep 10])).flatten ++ [Event.probeDA],
        DARunResult.aborted Err.network) :=
  single_job_probe_error_aborts.1 [DAProbe.ok ⟨"pending", none, none⟩ true] []
    (by decide)

/-- C8: the URN encoding is a deterministic function of the object id —
encoding the same object id twice yields the same string — and for every
input the resulting string contains no `'='` padding character. -/
theorem safe_base64_encode_deterministic_no_padding (text : String) :
    safe_base64_encode text = safe_base64_encode text ∧
    '=' ∉ (safe_base64_encode text).data := by
  refine ⟨rfl, ?_⟩
  have hstrip :
      stripEq (b64encodeBody (strBytes text) ++ b64pad (strBytes text).length) =
        b64encodeBody (strBytes text) :=
    stripEq_body_pad _ _
      (fun c hc => beq_eq_false_iff_ne.2 (mem_b64encodeBody_ne (strBytes text) c hc))
      (b64pad_all_eq _)
  show '=' ∉ stripEq (b64encodeBody (strBytes text) ++ b64pad (strBytes text).length)
  rw [hstrip]
  intro hmem
  exact mem_b64encodeBody_ne (strBytes text) '=' hmem rfl

/-- Witness for C7: a concrete successful upload of three bytes. -/
theorem upload_two_phase_finalize_exact_witness :
    (upload_to_OSS ⟨Except.ok ⟨["https://s3/u1"], "UPKEY"⟩, true, Except.ok "urn:adsk:obj"⟩
        "bkt" "file.dwg" [10, 20, 30]).1 =
      [UEvent.presignGet "bkt" "file.dwg", UEvent.put "https://s3/u1" [10, 20, 30],
        UEvent.finalizePost "bkt" "file.dwg" "UPKEY" 3] ∧
    (⟨Except.ok ⟨["https://s3/u1"], "UPKEY"⟩, true,
        Except.ok "urn:adsk:obj"⟩ : UploadNet).putOk = true ∧
    (⟨Except.ok ⟨["https://s3/u1"], "UPKEY"⟩, true,
        Except.ok "urn:adsk:obj"⟩ : UploadNet).finalizeResp = Except.ok "urn:adsk:obj" :=
  upload_two_phase_finalize_exact
    ⟨Except.ok ⟨["https://s3/u1"], "UPKEY"⟩, true, Except.ok "urn:adsk:obj"⟩
    "bkt" "file.dwg" [10, 20, 30] "urn:adsk:obj" ⟨["https://s3/u1"], "UPKEY"⟩
    "https://s3/u1" rfl rfl rfl

end APS
